import Mathlib

/-!
# SSD1306 OLED display C library — shallow embedding and verification

This file embeds the core of the SSD1306 driver (`ssd1306_driver.c`,
`ssd1306_driver.h`) in Lean 4 and proves properties of the embedded
definitions.

Modelling conventions:
* `uint8_t` values are `Nat` with explicit `% 256` where C truncation occurs;
  `int32_t` quantities that never overflow in the modelled code are `Int`.
* The framebuffer `uint8_t buffer[1024]` is a `List Nat` of length 1024
  (`SSD1306_BUFFER_SIZE = 128 * 64 / 8`).
* The injected bus transport `ssd1306_i2c_write(channel, addr, data, size)`
  is an arbitrary function `Nat → Nat → List Nat → ssd1306_status_t`.
  Each driver operation additionally returns the trace of transport calls it
  performed (channel, address, transmitted byte sequence), so that protocol
  claims about the transmitted frames can be stated.
* C functions mutate the session through a pointer; here every operation
  returns the updated session explicitly.
* The `while` loops of Bresenham's line algorithm and of integer-to-string
  conversion are embedded with an explicit fuel parameter that dominates the
  number of iterations the C loop can perform.
-/

/-- `ssd1306_status_t` from `ssd1306_driver.h`. -/
inductive ssd1306_status_t where
  | SSD1306_OK
  | SSD1306_NOINIT
  | SSD1306_WRONG_PARAMS
  | SSD1306_COMM_ERROR
  deriving DecidableEq, Repr

export ssd1306_status_t (SSD1306_OK SSD1306_NOINIT SSD1306_WRONG_PARAMS SSD1306_COMM_ERROR)

/-- `ssd1306_color_t` from `ssd1306_driver.h`. -/
inductive ssd1306_color_t where
  | SSD1306_COLOR_BLACK
  | SSD1306_COLOR_WHITE
  deriving DecidableEq, Repr

export ssd1306_color_t (SSD1306_COLOR_BLACK SSD1306_COLOR_WHITE)

/-- `ssd1306_scroll_t` from `ssd1306_driver.h`. -/
inductive ssd1306_scroll_t where
  | RIGHT_HORIZONTAL_SCROLL
  | LEFT_HORIZONTAL_SCROLL
  | VERTICAL_RIGHT_HORIZONTAL_SCROLL
  | VERTICAL_LEFT_HORIZONTAL_SCROLL
  deriving DecidableEq, Repr

def SSD1306_PXL_WIDTH : Nat := 128

def SSD1306_PXL_HEIGHT : Nat := 64

def SSD1306_BUFFER_SIZE : Nat := SSD1306_PXL_WIDTH * SSD1306_PXL_HEIGHT / 8

def SSD1306_NUM_PAGES : Nat := 8

/-- `SSD1306_DATA_WRITE_BUFFER_SIZE` from `ssd1306_driver.c`. -/
def SSD1306_DATA_WRITE_BUFFER_SIZE : Nat := 129

/-- The control byte prefixed to every command transmission. -/
def SSD1306_CMD_CONTROL_BYTE : Nat := 0x00

/-- The control byte prefixed to every data transmission. -/
def SSD1306_DATA_CONTROL_BYTE : Nat := 0x40

/-- `ssd1306_t` from `ssd1306_driver.h`.  The `buffer` field models
`uint8_t buffer[SSD1306_BUFFER_SIZE]` as a list of bytes. -/
structure ssd1306_t where
  x_pos : Nat
  y_pos : Nat
  inverted : Bool
  initialized : Bool
  scrolling : Bool
  i2c_channel : Nat
  i2c_addr : Nat
  buffer : List Nat
  deriving DecidableEq, Repr

/-- One call to the bus transport: channel, address, transmitted bytes. -/
def SSD1306_Frame : Type := Nat × Nat × List Nat

instance : DecidableEq SSD1306_Frame := by
  unfold SSD1306_Frame; infer_instance

/-- The transmitted byte sequence of a transport call. -/
def SSD1306_Frame.bytes (f : SSD1306_Frame) : List Nat := f.2.2

/-- The type of the injected bus transport `ssd1306_i2c_write`. -/
def SSD1306_I2C : Type := Nat → Nat → List Nat → ssd1306_status_t

/-! ## Command protocol layer (`ssd1306_cmd_write`, `ssd1306_cmd_write_multi`,
`ssd1306_data_write` from `ssd1306_driver.c`) -/

/-- `ssd1306_cmd_write`: wraps one command byte with the command control byte
and hands it to the transport; fails with `SSD1306_NOINIT` when the session is
not initialized. Returns the transport outcome and the trace of transport
calls made. -/
def ssd1306_cmd_write (i2c : SSD1306_I2C) (s : ssd1306_t) (cmd : Nat) :
    ssd1306_status_t × List SSD1306_Frame :=
  if s.initialized = false then (SSD1306_NOINIT, [])
  else
    let cmd_list := [SSD1306_CMD_CONTROL_BYTE, cmd]
    (i2c s.i2c_channel s.i2c_addr cmd_list, [(s.i2c_channel, s.i2c_addr, cmd_list)])

/-- `ssd1306_cmd_write_multi`: transmits a caller-built command list (whose
first element must already be the command control byte). -/
def ssd1306_cmd_write_multi (i2c : SSD1306_I2C) (s : ssd1306_t) (cmd_list : List Nat) :
    ssd1306_status_t × List SSD1306_Frame :=
  if s.initialized = false then (SSD1306_NOINIT, [])
  else
    (i2c s.i2c_channel s.i2c_addr cmd_list, [(s.i2c_channel, s.i2c_addr, cmd_list)])

/-- `ssd1306_data_write`: prefixes the data control byte and transmits.
Payloads of `data_size >= SSD1306_DATA_WRITE_BUFFER_SIZE` (129) bytes are
rejected with `SSD1306_WRONG_PARAMS` before any transport call.  The C code
copies the payload into a 129-byte stack array after the control byte and
transmits `data_size + 1` bytes, which is exactly `0x40 :: data`. -/
def ssd1306_data_write (i2c : SSD1306_I2C) (s : ssd1306_t) (data : List Nat) :
    ssd1306_status_t × List SSD1306_Frame :=
  if s.initialized = false then (SSD1306_NOINIT, [])
  else if data.length ≥ SSD1306_DATA_WRITE_BUFFER_SIZE then (SSD1306_WRONG_PARAMS, [])
  else
    let data_array := SSD1306_DATA_CONTROL_BYTE :: data
    (i2c s.i2c_channel s.i2c_addr data_array, [(s.i2c_channel, s.i2c_addr, data_array)])

/-! ## Framebuffer operations -/

/-- `ssd1306_goto_xy` from `ssd1306_driver.c`. -/
def ssd1306_goto_xy (s : ssd1306_t) (x y : Nat) : ssd1306_status_t × ssd1306_t :=
  if x ≥ SSD1306_PXL_WIDTH ∨ y ≥ SSD1306_PXL_HEIGHT then (SSD1306_WRONG_PARAMS, s)
  else (SSD1306_OK, { s with x_pos := x, y_pos := y })

/-- `ssd1306_draw_fill` from `ssd1306_driver.c`: resolves the physical fill
byte from the requested color and the inversion flag, then memsets the whole
buffer to it. -/
def ssd1306_draw_fill (s : ssd1306_t) (color : ssd1306_color_t) :
    ssd1306_status_t × ssd1306_t :=
  let pxl_color : Nat :=
    match color with
    | SSD1306_COLOR_BLACK => if s.inverted then 0xFF else 0x00
    | SSD1306_COLOR_WHITE => if s.inverted then 0x00 else 0xFF
  (SSD1306_OK, { s with buffer := List.replicate SSD1306_BUFFER_SIZE pxl_color })

/-- C's `!color` on the two-valued color enumeration. -/
def ssd1306_color_not : ssd1306_color_t → ssd1306_color_t
  | SSD1306_COLOR_BLACK => SSD1306_COLOR_WHITE
  | SSD1306_COLOR_WHITE => SSD1306_COLOR_BLACK

/-- `ssd1306_draw_pixel` from `ssd1306_driver.c`.  Out-of-range coordinates
are a silent no-op returning `SSD1306_OK`.  In range, bit `y & 7` of buffer
byte `x + (y >> 3) * 128` is set (physical white) or cleared (physical black),
where the physical color is the requested color, complemented when the
session is inverted. -/
def ssd1306_draw_pixel (s : ssd1306_t) (x y : Nat) (color : ssd1306_color_t) :
    ssd1306_status_t × ssd1306_t :=
  if x ≥ SSD1306_PXL_WIDTH ∨ y ≥ SSD1306_PXL_HEIGHT then (SSD1306_OK, s)
  else
    let pxl_color := if s.inverted then ssd1306_color_not color else color
    let idx := x + (y >>> 3) * SSD1306_PXL_WIDTH
    match pxl_color with
    | SSD1306_COLOR_WHITE =>
        (SSD1306_OK, { s with
          buffer := s.buffer.set idx (s.buffer.getD idx 0 ||| (1 <<< (y &&& 0x7))) })
    | SSD1306_COLOR_BLACK =>
        (SSD1306_OK, { s with
          buffer := s.buffer.set idx (s.buffer.getD idx 0 &&& (0xFF ^^^ (1 <<< (y &&& 0x7)))) })

/-- `ssd1306_clear_buffer` from `ssd1306_driver.c`: zeroes the software
buffer without touching the hardware. -/
def ssd1306_clear_buffer (s : ssd1306_t) : ssd1306_status_t × ssd1306_t :=
  (SSD1306_OK, { s with buffer := List.replicate SSD1306_BUFFER_SIZE 0 })

/-! ## Fundamental hardware commands -/

/-- `ssd1306_display_on`: charge-pump enable followed by display-on, sent as
one command burst. -/
def ssd1306_display_on (i2c : SSD1306_I2C) (s : ssd1306_t) :
    ssd1306_status_t × List SSD1306_Frame :=
  let cmd_list := [SSD1306_CMD_CONTROL_BYTE, 0x8D, 0x14, 0xAF]
  let r := ssd1306_cmd_write_multi i2c s cmd_list
  if r.1 ≠ SSD1306_OK then r else (SSD1306_OK, r.2)

/-- `ssd1306_display_off`: charge-pump disable followed by display-off. -/
def ssd1306_display_off (i2c : SSD1306_I2C) (s : ssd1306_t) :
    ssd1306_status_t × List SSD1306_Frame :=
  let cmd_list := [SSD1306_CMD_CONTROL_BYTE, 0x8D, 0x10, 0xAE]
  let r := ssd1306_cmd_write_multi i2c s cmd_list
  if r.1 ≠ SSD1306_OK then r else (SSD1306_OK, r.2)

/-- `ssd1306_set_contrast`. -/
def ssd1306_set_contrast (i2c : SSD1306_I2C) (s : ssd1306_t) (contrast_value : Nat) :
    ssd1306_status_t × List SSD1306_Frame :=
  let cmd_list := [SSD1306_CMD_CONTROL_BYTE, 0x81, contrast_value]
  let r := ssd1306_cmd_write_multi i2c s cmd_list
  if r.1 ≠ SSD1306_OK then r else (SSD1306_OK, r.2)

/-- `ssd1306_set_inversion`: sends normal/inverted display command; the
`inverted` field is assigned only after the command burst succeeded. -/
def ssd1306_set_inversion (i2c : SSD1306_I2C) (s : ssd1306_t) (is_inverted : Bool) :
    ssd1306_status_t × ssd1306_t × List SSD1306_Frame :=
  let cmd_list := [SSD1306_CMD_CONTROL_BYTE, if is_inverted then 0xA7 else 0xA6]
  let r := ssd1306_cmd_write_multi i2c s cmd_list
  if r.1 ≠ SSD1306_OK then (r.1, s, r.2)
  else (SSD1306_OK, { s with inverted := is_inverted }, r.2)

/-- `ssd1306_set_scroll_status`: activate/deactivate scroll; the `scrolling`
field is assigned only after the command burst succeeded. -/
def ssd1306_set_scroll_status (i2c : SSD1306_I2C) (s : ssd1306_t) (is_scrolling : Bool) :
    ssd1306_status_t × ssd1306_t × List SSD1306_Frame :=
  let cmd_list := [SSD1306_CMD_CONTROL_BYTE, if is_scrolling then 0x2F else 0x2E]
  let r := ssd1306_cmd_write_multi i2c s cmd_list
  if r.1 ≠ SSD1306_OK then (r.1, s, r.2)
  else (SSD1306_OK, { s with scrolling := is_scrolling }, r.2)

/-- The command byte selected by `ssd1306_scroll`'s first `switch`. -/
def ssd1306_scroll_cmd : ssd1306_scroll_t → Nat
  | ssd1306_scroll_t.RIGHT_HORIZONTAL_SCROLL          => 0x26
  | ssd1306_scroll_t.LEFT_HORIZONTAL_SCROLL           => 0x27
  | ssd1306_scroll_t.VERTICAL_RIGHT_HORIZONTAL_SCROLL => 0x29
  | ssd1306_scroll_t.VERTICAL_LEFT_HORIZONTAL_SCROLL  => 0x2A

/-- `ssd1306_scroll`: common six-byte command burst, then type-specific
trailing command writes, then `ssd1306_set_scroll_status(true)`. -/
def ssd1306_scroll (i2c : SSD1306_I2C) (s : ssd1306_t) (type : ssd1306_scroll_t)
    (start_page end_page interval : Nat) :
    ssd1306_status_t × ssd1306_t × List SSD1306_Frame :=
  let cmd_list := [SSD1306_CMD_CONTROL_BYTE, ssd1306_scroll_cmd type, 0x00,
                   start_page, interval, end_page]
  let r := ssd1306_cmd_write_multi i2c s cmd_list
  if r.1 ≠ SSD1306_OK then (r.1, s, r.2)
  else
    match type with
    | ssd1306_scroll_t.RIGHT_HORIZONTAL_SCROLL
    | ssd1306_scroll_t.LEFT_HORIZONTAL_SCROLL =>
        let r2 := ssd1306_cmd_write i2c s 0x00
        if r2.1 ≠ SSD1306_OK then (r2.1, s, r.2 ++ r2.2)
        else
          let r3 := ssd1306_cmd_write i2c s 0xFF
          if r3.1 ≠ SSD1306_OK then (r3.1, s, r.2 ++ r2.2 ++ r3.2)
          else
            let r4 := ssd1306_set_scroll_status i2c s true
            (r4.1, r4.2.1, r.2 ++ r2.2 ++ r3.2 ++ r4.2.2)
    | ssd1306_scroll_t.VERTICAL_RIGHT_HORIZONTAL_SCROLL
    | ssd1306_scroll_t.VERTICAL_LEFT_HORIZONTAL_SCROLL =>
        let r2 := ssd1306_cmd_write i2c s 0x01
        if r2.1 ≠ SSD1306_OK then (r2.1, s, r.2 ++ r2.2)
        else
          let r4 := ssd1306_set_scroll_status i2c s true
          (r4.1, r4.2.1, r.2 ++ r2.2 ++ r4.2.2)

/-! ## Flush (`ssd1306_update`) -/

/-- The page loop of `ssd1306_update`: for each remaining page starting at
`p`, transmit the 128 buffer bytes of that page via `ssd1306_data_write`,
aborting on the first failure. -/
def ssd1306_update_loop (i2c : SSD1306_I2C) (s : ssd1306_t) :
    Nat → Nat → ssd1306_status_t × List SSD1306_Frame
  | _, 0 => (SSD1306_OK, [])
  | p, rem + 1 =>
      let r := ssd1306_data_write i2c s
        ((s.buffer.drop (SSD1306_PXL_WIDTH * p)).take SSD1306_PXL_WIDTH)
      if r.1 ≠ SSD1306_OK then r
      else
        let r2 := ssd1306_update_loop i2c s (p + 1) rem
        (r2.1, r.2 ++ r2.2)

/-- `ssd1306_update`: flushes the whole framebuffer, one page of
`SSD1306_PXL_WIDTH` bytes per data transmission, pages in ascending order.
The session itself is not modified; it is returned unchanged. -/
def ssd1306_update (i2c : SSD1306_I2C) (s : ssd1306_t) :
    ssd1306_status_t × ssd1306_t × List SSD1306_Frame :=
  let r := ssd1306_update_loop i2c s 0 SSD1306_NUM_PAGES
  (r.1, s, r.2)

/-- `ssd1306_clear_display`: reset inversion, fill black, flush. -/
def ssd1306_clear_display (i2c : SSD1306_I2C) (s : ssd1306_t) :
    ssd1306_status_t × ssd1306_t × List SSD1306_Frame :=
  let r1 := ssd1306_set_inversion i2c s false
  if r1.1 ≠ SSD1306_OK then (r1.1, r1.2.1, r1.2.2)
  else
    let r2 := ssd1306_draw_fill r1.2.1 SSD1306_COLOR_BLACK
    if r2.1 ≠ SSD1306_OK then (r2.1, r2.2, r1.2.2)
    else
      let r3 := ssd1306_update i2c r2.2
      (if r3.1 ≠ SSD1306_OK then r3.1 else SSD1306_OK, r3.2.1, r1.2.2 ++ r3.2.2)

/-- The compound configuration command burst of `ssd1306_init`. -/
def ssd1306_init_cmd_list : List Nat :=
  [SSD1306_CMD_CONTROL_BYTE,
   0xA4,        -- resume to RAM
   0x20, 0x00,  -- horizontal addressing mode
   0x21, 0x00, 0x7F,
   0x22, 0x00, 0x07,
   0x40,        -- display start line
   0xA1,        -- segment remap
   0xA8, 0x3F,  -- multiplex ratio
   0xC8,        -- COM scan direction remapped
   0xD3, 0x00,  -- display offset
   0xDA, 0x12,  -- COM pins hardware config
   0xD5, 0x80,  -- clock divide / oscillator frequency
   0xD9, 0x22,  -- pre-charge period
   0xDB, 0x20]  -- VCOMH deselect level

/-- `ssd1306_init`: zeroes the session, installs channel/address, marks it
initialized, then runs the hardware bring-up sequence, aborting on the first
failing step. -/
def ssd1306_init (i2c : SSD1306_I2C) (i2c_channel i2c_addr : Nat) :
    ssd1306_status_t × ssd1306_t × List SSD1306_Frame :=
  let s : ssd1306_t :=
    { x_pos := 0, y_pos := 0, inverted := false, initialized := true,
      scrolling := false, i2c_channel := i2c_channel, i2c_addr := i2c_addr,
      buffer := List.replicate SSD1306_BUFFER_SIZE 0 }
  let r1 := ssd1306_display_off i2c s
  if r1.1 ≠ SSD1306_OK then (r1.1, s, r1.2)
  else
    let r2 := ssd1306_set_inversion i2c s false
    if r2.1 ≠ SSD1306_OK then (r2.1, r2.2.1, r1.2 ++ r2.2.2)
    else
      let s2 := r2.2.1
      let r3 := ssd1306_set_contrast i2c s2 0xFF
      if r3.1 ≠ SSD1306_OK then (r3.1, s2, r1.2 ++ r2.2.2 ++ r3.2)
      else
        let r4 := ssd1306_set_scroll_status i2c s2 false
        if r4.1 ≠ SSD1306_OK then (r4.1, r4.2.1, r1.2 ++ r2.2.2 ++ r3.2 ++ r4.2.2)
        else
          let s4 := r4.2.1
          let r5 := ssd1306_cmd_write_multi i2c s4 ssd1306_init_cmd_list
          if r5.1 ≠ SSD1306_OK then (r5.1, s4, r1.2 ++ r2.2.2 ++ r3.2 ++ r4.2.2 ++ r5.2)
          else
            let r6 := ssd1306_display_on i2c s4
            if r6.1 ≠ SSD1306_OK then
              (r6.1, s4, r1.2 ++ r2.2.2 ++ r3.2 ++ r4.2.2 ++ r5.2 ++ r6.2)
            else
              let r7 := ssd1306_clear_display i2c s4
              (r7.1, r7.2.1, r1.2 ++ r2.2.2 ++ r3.2 ++ r4.2.2 ++ r5.2 ++ r6.2 ++ r7.2.2)

/-! ## Bresenham line (`ssd1306_draw_line`) -/

/-- One `uint8_t` step `v += sv` with `sv = ±1`, i.e. addition modulo 256. -/
def ssd1306_u8_step (v : Nat) (sv : Int) : Nat :=
  (((v : Int) + sv).emod 256).toNat

/-- The `while (true)` loop of `ssd1306_draw_line`.  Loop state: current
point `(x0, y0)` (both `uint8_t`, stepping modulo 256) and the error
accumulator `err` (`int32_t`).  `dx`, `dy`, `sx`, `sy` are loop invariant.
The fuel parameter dominates the number of iterations the loop performs
(at most `max dx |dy| + 1 ≤ 256` for `uint8_t` endpoints). -/
def ssd1306_draw_line_loop (x1 y1 : Nat) (sx sy dx dy : Int)
    (color : ssd1306_color_t) :
    Nat → Nat → Nat → Int → ssd1306_t → ssd1306_status_t × ssd1306_t
  | 0, _, _, _, s => (SSD1306_OK, s)
  | fuel + 1, x0, y0, err, s =>
      let r := ssd1306_draw_pixel s x0 y0 color
      if r.1 ≠ SSD1306_OK then r
      else if x0 = x1 ∧ y0 = y1 then (SSD1306_OK, r.2)
      else
        let e2 := 2 * err
        let x0' := if e2 ≥ dy then ssd1306_u8_step x0 sx else x0
        let err' := if e2 ≥ dy then err + dy else err
        let y0' := if e2 ≤ dx then ssd1306_u8_step y0 sy else y0
        let err'' := if e2 ≤ dx then err' + dx else err'
        ssd1306_draw_line_loop x1 y1 sx sy dx dy color fuel x0' y0' err'' r.2

/-- `ssd1306_draw_line` from `ssd1306_driver.c` (Bresenham's algorithm,
endpoints inclusive). -/
def ssd1306_draw_line (s : ssd1306_t) (x0 y0 x1 y1 : Nat)
    (color : ssd1306_color_t) : ssd1306_status_t × ssd1306_t :=
  let dx : Int := ((x1 : Int) - (x0 : Int)).natAbs
  let sx : Int := if x0 < x1 then 1 else -1
  let dy : Int := -(((y1 : Int) - (y0 : Int)).natAbs)
  let sy : Int := if y0 < y1 then 1 else -1
  let err : Int := dx + dy
  ssd1306_draw_line_loop x1 y1 sx sy dx dy color 600 x0 y0 err s

/-! ## Glyph, string and integer rendering -/

/-- `ssd1306_font_t` from `ssd1306_fonts.h`.  The glyph tables themselves
live in `ssd1306_fonts.c` (not part of the driver core); the `font_map`
function models the indexed table lookup: for fonts at most 8 pixels wide
the table entries are bytes, otherwise 16-bit words, exactly as the `void *`
table is accessed in `ssd1306_draw_char`. -/
structure ssd1306_font_t where
  font_width : Nat
  font_height : Nat
  font_map : Nat → Nat

/-- The inner column loop of `ssd1306_draw_char`: for `j` ranging over the
font width, draw the pixel at `(x_pos + j, y_pos + i)` (coordinates truncated
to `uint8_t`), colored by the requested color when bit 15 of
`char_line << j` is set, and by the complementary color otherwise. -/
def ssd1306_draw_char_cols (char_line i : Nat) (color : ssd1306_color_t) :
    Nat → Nat → ssd1306_t → ssd1306_status_t × ssd1306_t
  | 0, _, s => (SSD1306_OK, s)
  | rem + 1, j, s =>
      let pixel_color :=
        if (char_line <<< j) &&& 0x8000 ≠ 0 then color else ssd1306_color_not color
      let r := ssd1306_draw_pixel s ((s.x_pos + j) % 256) ((s.y_pos + i) % 256)
        pixel_color
      if r.1 ≠ SSD1306_OK then r
      else ssd1306_draw_char_cols char_line i color rem (j + 1) r.2

/-- The outer row loop of `ssd1306_draw_char`: for `i` ranging over the font
height, fetch the glyph row `(ch - 32) * font_height + i` (shifted into the
high byte for 8-bit-wide fonts) and render its columns. -/
def ssd1306_draw_char_rows (ch : Char) (font : ssd1306_font_t)
    (color : ssd1306_color_t) :
    Nat → Nat → ssd1306_t → ssd1306_status_t × ssd1306_t
  | 0, _, s => (SSD1306_OK, s)
  | rem + 1, i, s =>
      let idx := (ch.toNat - 32) * font.font_height + i
      let char_line :=
        if font.font_width ≤ 8 then font.font_map idx <<< 8 else font.font_map idx
      let r := ssd1306_draw_char_cols char_line i color font.font_width 0 s
      if r.1 ≠ SSD1306_OK then r
      else ssd1306_draw_char_rows ch font color rem (i + 1) r.2

/-- `ssd1306_draw_char` from `ssd1306_driver.c`: paints the full glyph cell
(background included) at the cursor, then advances the cursor x by the font
width (`uint8_t` addition). -/
def ssd1306_draw_char (s : ssd1306_t) (ch : Char) (font : ssd1306_font_t)
    (color : ssd1306_color_t) : ssd1306_status_t × ssd1306_t :=
  let r := ssd1306_draw_char_rows ch font color font.font_height 0 s
  if r.1 ≠ SSD1306_OK then r
  else (SSD1306_OK, { r.2 with x_pos := (r.2.x_pos + font.font_width) % 256 })

/-- `ssd1306_draw_str` from `ssd1306_driver.c`: draws the string character by
character, aborting on the first failure. -/
def ssd1306_draw_str (s : ssd1306_t) (str : List Char) (font : ssd1306_font_t)
    (color : ssd1306_color_t) : ssd1306_status_t × ssd1306_t :=
  match str with
  | [] => (SSD1306_OK, s)
  | ch :: rest =>
      let r := ssd1306_draw_char s ch font color
      if r.1 ≠ SSD1306_OK then r
      else ssd1306_draw_str r.2 rest font color

/-- The digit character produced by `ssd1306_draw_int`'s conversion loop:
`(rem > 9) ? (rem - 10) + 'A' : rem + '0'`. -/
def ssd1306_digit_char (rem : Nat) : Char :=
  if rem > 9 then Char.ofNat (rem - 10 + 'A'.toNat) else Char.ofNat (rem + '0'.toNat)

/-- The `while (num_abs)` digit-extraction loop of `ssd1306_draw_int`,
producing the digit characters least-significant first.  The fuel (33 in
`ssd1306_draw_int`) dominates the digit count of any `int32_t` in base ≥ 2. -/
def ssd1306_int_digits (base : Nat) : Nat → Nat → List Char
  | 0, _ => []
  | fuel + 1, num_abs =>
      if num_abs = 0 then []
      else ssd1306_digit_char (num_abs % base) ::
        ssd1306_int_digits base fuel (num_abs / base)

/-- The string built by `ssd1306_draw_int` into `str_buf`: `"0"` for zero;
otherwise the digits of `|num|` in the given base, a `'-'` appended when the
number is negative *and the base is 10*, the whole buffer then reversed. -/
def ssd1306_int_to_str (num : Int) (base : Nat) : List Char :=
  if num = 0 then ['0']
  else
    let ds := ssd1306_int_digits base 33 num.natAbs
    let ds := if num < 0 ∧ base = 10 then ds ++ ['-'] else ds
    ds.reverse

/-- `ssd1306_draw_int` from `ssd1306_driver.c`: rejects bases outside
`[2, 32]`, converts the number to a string by repeated division and
reversal, and renders that string via `ssd1306_draw_str`. -/
def ssd1306_draw_int (s : ssd1306_t) (num : Int) (base : Nat)
    (font : ssd1306_font_t) (color : ssd1306_color_t) :
    ssd1306_status_t × ssd1306_t :=
  if base < 2 ∨ base > 32 then (SSD1306_WRONG_PARAMS, s)
  else ssd1306_draw_str s (ssd1306_int_to_str num base) font color

/-! ## Shape primitives (`ssd1306_draw_rect` … `ssd1306_draw_bitmap`) -/

/-- Conversion of an `int32_t` expression to a `uint8_t` parameter:
value modulo 256 (C conversion to an unsigned type). -/
def ssd1306_i32_to_u8 (v : Int) : Nat := (v % 256).toNat

/-- `ssd1306_draw_rect` from `ssd1306_driver.c`: top, bottom, left and right
edge, each a `ssd1306_draw_line` call, aborting on the first failure. -/
def ssd1306_draw_rect (s : ssd1306_t) (x y w h : Nat)
    (color : ssd1306_color_t) : ssd1306_status_t × ssd1306_t :=
  let r1 := ssd1306_draw_line s x y ((x + w) % 256) y color
  if r1.1 ≠ SSD1306_OK then r1
  else
    let r2 := ssd1306_draw_line r1.2 x ((y + h) % 256) ((x + w) % 256)
      ((y + h) % 256) color
    if r2.1 ≠ SSD1306_OK then r2
    else
      let r3 := ssd1306_draw_line r2.2 x y x ((y + h) % 256) color
      if r3.1 ≠ SSD1306_OK then r3
      else
        let r4 := ssd1306_draw_line r3.2 ((x + w) % 256) y ((x + w) % 256)
          ((y + h) % 256) color
        if r4.1 ≠ SSD1306_OK then r4
        else (SSD1306_OK, r4.2)

/-- The row loop of `ssd1306_draw_filled_rect`: one horizontal line per
`i = 0 … h` (the C loop body runs `h + 1` times). -/
def ssd1306_draw_filled_rect_loop (x y w : Nat) (color : ssd1306_color_t) :
    Nat → Nat → ssd1306_t → ssd1306_status_t × ssd1306_t
  | 0, _, s => (SSD1306_OK, s)
  | rem + 1, i, s =>
      let r := ssd1306_draw_line s x ((y + i) % 256) ((x + w) % 256)
        ((y + i) % 256) color
      if r.1 ≠ SSD1306_OK then r
      else ssd1306_draw_filled_rect_loop x y w color rem (i + 1) r.2

/-- `ssd1306_draw_filled_rect` from `ssd1306_driver.c`. -/
def ssd1306_draw_filled_rect (s : ssd1306_t) (x y w h : Nat)
    (color : ssd1306_color_t) : ssd1306_status_t × ssd1306_t :=
  ssd1306_draw_filled_rect_loop x y w color (h + 1) 0 s

/-- The `do … while (x < 0)` loop of `ssd1306_draw_circle` (midpoint circle):
four symmetric pixels per step, then the error-driven `++x` / `++y` updates
on the saved error `rc`.  The fuel dominates the iteration count. -/
def ssd1306_draw_circle_loop (xc yc : Int) (color : ssd1306_color_t) :
    Nat → Int → Int → Int → ssd1306_t → ssd1306_status_t × ssd1306_t
  | 0, _, _, _, s => (SSD1306_OK, s)
  | fuel + 1, x, y, err, s =>
      let r1 := ssd1306_draw_pixel s (ssd1306_i32_to_u8 (xc - x))
        (ssd1306_i32_to_u8 (yc + y)) color
      if r1.1 ≠ SSD1306_OK then r1
      else
        let r2 := ssd1306_draw_pixel r1.2 (ssd1306_i32_to_u8 (xc - y))
          (ssd1306_i32_to_u8 (yc - x)) color
        if r2.1 ≠ SSD1306_OK then r2
        else
          let r3 := ssd1306_draw_pixel r2.2 (ssd1306_i32_to_u8 (xc + x))
            (ssd1306_i32_to_u8 (yc - y)) color
          if r3.1 ≠ SSD1306_OK then r3
          else
            let r4 := ssd1306_draw_pixel r3.2 (ssd1306_i32_to_u8 (xc + y))
              (ssd1306_i32_to_u8 (yc + x)) color
            if r4.1 ≠ SSD1306_OK then r4
            else
              let rc := err
              let x' := if rc > x then x + 1 else x
              let err' := if rc > x then err + (2 * (x + 1) + 1) else err
              let y' := if rc ≤ y then y + 1 else y
              let err'' := if rc ≤ y then err' + (2 * (y + 1) + 1) else err'
              if x' < 0 then ssd1306_draw_circle_loop xc yc color fuel x' y' err'' r4.2
              else (SSD1306_OK, r4.2)

/-- `ssd1306_draw_circle` from `ssd1306_driver.c`. -/
def ssd1306_draw_circle (s : ssd1306_t) (x0 y0 : Nat) (r : Nat)
    (color : ssd1306_color_t) : ssd1306_status_t × ssd1306_t :=
  ssd1306_draw_circle_loop (x0 : Int) (y0 : Int) color (4 * r + 8)
    (-(r : Int)) 0 (2 - 2 * (r : Int)) s

/-- The `do … while (x < 0)` loop of `ssd1306_draw_filled_circle`: the same
stepping as the circle loop, but four symmetric line segments per step. -/
def ssd1306_draw_filled_circle_loop (xc yc : Int) (color : ssd1306_color_t) :
    Nat → Int → Int → Int → ssd1306_t → ssd1306_status_t × ssd1306_t
  | 0, _, _, _, s => (SSD1306_OK, s)
  | fuel + 1, x, y, err, s =>
      let r1 := ssd1306_draw_line s (ssd1306_i32_to_u8 (xc - x))
        (ssd1306_i32_to_u8 (yc + y)) (ssd1306_i32_to_u8 (xc + x))
        (ssd1306_i32_to_u8 (yc - y)) color
      if r1.1 ≠ SSD1306_OK then r1
      else
        let r2 := ssd1306_draw_line r1.2 (ssd1306_i32_to_u8 (xc - y))
          (ssd1306_i32_to_u8 (yc - x)) (ssd1306_i32_to_u8 (xc + y))
          (ssd1306_i32_to_u8 (yc + x)) color
        if r2.1 ≠ SSD1306_OK then r2
        else
          let r3 := ssd1306_draw_line r2.2 (ssd1306_i32_to_u8 (xc + x))
            (ssd1306_i32_to_u8 (yc - y)) (ssd1306_i32_to_u8 (xc - x))
            (ssd1306_i32_to_u8 (yc + y)) color
          if r3.1 ≠ SSD1306_OK then r3
          else
            let r4 := ssd1306_draw_line r3.2 (ssd1306_i32_to_u8 (xc + y))
              (ssd1306_i32_to_u8 (yc + x)) (ssd1306_i32_to_u8 (xc - y))
              (ssd1306_i32_to_u8 (yc - x)) color
            if r4.1 ≠ SSD1306_OK then r4
            else
              let rc := err
              let x' := if rc > x then x + 1 else x
              let err' := if rc > x then err + (2 * (x + 1) + 1) else err
              let y' := if rc ≤ y then y + 1 else y
              let err'' := if rc ≤ y then err' + (2 * (y + 1) + 1) else err'
              if x' < 0 then
                ssd1306_draw_filled_circle_loop xc yc color fuel x' y' err'' r4.2
              else (SSD1306_OK, r4.2)

/-- `ssd1306_draw_filled_circle` from `ssd1306_driver.c`. -/
def ssd1306_draw_filled_circle (s : ssd1306_t) (x0 y0 : Nat) (r : Nat)
    (color : ssd1306_color_t) : ssd1306_status_t × ssd1306_t :=
  ssd1306_draw_filled_circle_loop (x0 : Int) (y0 : Int) color (4 * r + 8)
    (-(r : Int)) 0 (2 - 2 * (r : Int)) s

/-- `ssd1306_draw_triangle` from `ssd1306_driver.c`: the three edges, each
a `ssd1306_draw_line` call, aborting on the first failure. -/
def ssd1306_draw_triangle (s : ssd1306_t) (x1 y1 x2 y2 x3 y3 : Nat)
    (color : ssd1306_color_t) : ssd1306_status_t × ssd1306_t :=
  let r1 := ssd1306_draw_line s x1 y1 x2 y2 color
  if r1.1 ≠ SSD1306_OK then r1
  else
    let r2 := ssd1306_draw_line r1.2 x2 y2 x3 y3 color
    if r2.1 ≠ SSD1306_OK then r2
    else
      let r3 := ssd1306_draw_line r2.2 x3 y3 x1 y1 color
      if r3.1 ≠ SSD1306_OK then r3
      else (SSD1306_OK, r3.2)

/-- The scan loop of `ssd1306_draw_filled_triangle`: `numpixels + 1` lines
from the interpolated edge point `(x, y)` to the apex `(x3, y3)`, with the
digital-differential `num`/`den` stepping of the C loop. -/
def ssd1306_draw_filled_triangle_loop (x3 y3 : Nat) (color : ssd1306_color_t)
    (xinc1 xinc2 yinc1 yinc2 den numadd : Int) :
    Nat → Int → Int → Int → ssd1306_t → ssd1306_status_t × ssd1306_t
  | 0, _, _, _, s => (SSD1306_OK, s)
  | rem + 1, x, y, num, s =>
      let r := ssd1306_draw_line s (ssd1306_i32_to_u8 x) (ssd1306_i32_to_u8 y)
        x3 y3 color
      if r.1 ≠ SSD1306_OK then r
      else
        let num' := num + numadd
        let x' := if num' ≥ den then x + xinc1 else x
        let y' := if num' ≥ den then y + yinc1 else y
        let num'' := if num' ≥ den then num' - den else num'
        ssd1306_draw_filled_triangle_loop x3 y3 color xinc1 xinc2 yinc1 yinc2
          den numadd rem (x' + xinc2) (y' + yinc2) num'' r.2

/-- `ssd1306_draw_filled_triangle` from `ssd1306_driver.c`: selects the
major axis, zeroing the minor-axis increment of the off-branch exactly as
the C does, then runs the scan loop for `numpixels + 1` steps. -/
def ssd1306_draw_filled_triangle (s : ssd1306_t) (x1 y1 x2 y2 x3 y3 : Nat)
    (color : ssd1306_color_t) : ssd1306_status_t × ssd1306_t :=
  let deltax : Int := ((x2 : Int) - (x1 : Int)).natAbs
  let deltay : Int := ((y2 : Int) - (y1 : Int)).natAbs
  let xs : Int := if x2 ≥ x1 then 1 else -1
  let ys : Int := if y2 ≥ y1 then 1 else -1
  if deltax ≥ deltay then
    ssd1306_draw_filled_triangle_loop x3 y3 color 0 xs ys 0 deltax deltay
      (deltax.toNat + 1) (x1 : Int) (y1 : Int) (deltax / 2) s
  else
    ssd1306_draw_filled_triangle_loop x3 y3 color xs 0 0 ys deltay deltax
      (deltay.toNat + 1) (x1 : Int) (y1 : Int) (deltay / 2) s

/-- The column loop of `ssd1306_draw_bitmap`: within a row, reload the
source byte every 8 pixels (at `i & 7 == 0`, so the byte carried into a row
is never read), shift it otherwise, and draw a pixel where bit 7 is set. -/
def ssd1306_draw_bitmap_cols (bitmap : Nat → Nat) (byte_width x yrow j : Nat)
    (color : ssd1306_color_t) :
    Nat → Nat → Nat → ssd1306_t → ssd1306_status_t × ssd1306_t
  | 0, _, _, s => (SSD1306_OK, s)
  | rem + 1, i, byte, s =>
      let byte' := if i &&& 7 ≠ 0 then (byte <<< 1) % 256
        else bitmap (j * byte_width + (i >>> 3))
      if byte' &&& 0x80 ≠ 0 then
        let r := ssd1306_draw_pixel s ((x + i) % 256) yrow color
        if r.1 ≠ SSD1306_OK then r
        else ssd1306_draw_bitmap_cols bitmap byte_width x yrow j color rem
          (i + 1) byte' r.2
      else ssd1306_draw_bitmap_cols bitmap byte_width x yrow j color rem
        (i + 1) byte' s

/-- The row loop of `ssd1306_draw_bitmap`: advance `y` (a `uint8_t`) by one
per row. -/
def ssd1306_draw_bitmap_rows (bitmap : Nat → Nat) (byte_width x w : Nat)
    (color : ssd1306_color_t) :
    Nat → Nat → Nat → ssd1306_t → ssd1306_status_t × ssd1306_t
  | 0, _, _, s => (SSD1306_OK, s)
  | rem + 1, j, y, s =>
      let r := ssd1306_draw_bitmap_cols bitmap byte_width x y j color w 0 0 s
      if r.1 ≠ SSD1306_OK then r
      else ssd1306_draw_bitmap_rows bitmap byte_width x w color rem (j + 1)
        ((y + 1) % 256) r.2

/-- `ssd1306_draw_bitmap` from `ssd1306_driver.c`, over an abstract packed
1-bit-per-pixel source with row stride `(w + 7) >> 3` bytes. -/
def ssd1306_draw_bitmap (s : ssd1306_t) (x y : Nat) (bitmap : Nat → Nat)
    (w h : Nat) (color : ssd1306_color_t) : ssd1306_status_t × ssd1306_t :=
  ssd1306_draw_bitmap_rows bitmap ((w + 7) >>> 3) x w color h 0 y s

/-! ## Test fixtures and observation helpers -/

/-- A transport that accepts every transmission. -/
def ssd1306_i2c_ok : SSD1306_I2C := fun _ _ _ => SSD1306_OK

/-- A transport that fails every transmission with a communication error. -/
def ssd1306_i2c_fail : SSD1306_I2C := fun _ _ _ => SSD1306_COMM_ERROR

/-- An initialized, non-inverted session with a cleared buffer. -/
def ssd1306_test_session : ssd1306_t :=
  { x_pos := 0, y_pos := 0, inverted := false, initialized := true,
    scrolling := false, i2c_channel := 0, i2c_addr := 0x78,
    buffer := List.replicate SSD1306_BUFFER_SIZE 0 }

/-- A session that has not been initialized. -/
def ssd1306_uninit_session : ssd1306_t :=
  { x_pos := 0, y_pos := 0, inverted := false, initialized := false,
    scrolling := false, i2c_channel := 0, i2c_addr := 0x78,
    buffer := List.replicate SSD1306_BUFFER_SIZE 0 }

/-- A small concrete font used to instantiate glyph-rendering theorems. -/
def ssd1306_test_font : ssd1306_font_t :=
  { font_width := 8, font_height := 1, font_map := fun _ => 0xAA }

/-- All display coordinates `(x, y)` whose framebuffer bit is set, read back
through the documented layout: byte `x + (y / 8) * 128`, bit `y % 8`. -/
def ssd1306_set_pixels (buf : List Nat) : List (Nat × Nat) :=
  buf.enum.flatMap fun ib =>
    (List.range 8).filterMap fun k =>
      if ib.2.testBit k then some (ib.1 % 128, (ib.1 / 128) * 8 + k) else none

/-- The physical bit value of a color: white = 1, black = 0. -/
def ssd1306_color_bit : ssd1306_color_t → Bool
  | SSD1306_COLOR_BLACK => false
  | SSD1306_COLOR_WHITE => true

/-- Every frame of the trace is a command frame: first byte `0x00`. -/
def ssd1306_cmd_framed (tr : List SSD1306_Frame) : Prop :=
  ∀ f ∈ tr, f.bytes.head? = some SSD1306_CMD_CONTROL_BYTE

/-- Every frame of the trace is a data frame: first byte `0x40`. -/
def ssd1306_data_framed (tr : List SSD1306_Frame) : Prop :=
  ∀ f ∈ tr, f.bytes.head? = some SSD1306_DATA_CONTROL_BYTE

/-- Every frame of the trace starts with one of the two control bytes. -/
def ssd1306_well_framed (tr : List SSD1306_Frame) : Prop :=
  ∀ f ∈ tr, f.bytes.head? = some SSD1306_CMD_CONTROL_BYTE ∨
            f.bytes.head? = some SSD1306_DATA_CONTROL_BYTE

/-! ## Claim theorems -/

/-- **C6** — on an initialized session `ssd1306_data_write` rejects payloads
larger than 128 bytes with `SSD1306_WRONG_PARAMS` without calling the bus
transport, and otherwise performs exactly one transport call transmitting
`payload size + 1` bytes: the data control byte followed by the payload. -/
theorem ssd1306_data_write_capacity (i2c : SSD1306_I2C) (s : ssd1306_t)
    (data : List Nat) (hinit : s.initialized = true) :
    (data.length > 128 → ssd1306_data_write i2c s data = (SSD1306_WRONG_PARAMS, [])) ∧
    (data.length ≤ 128 →
      ssd1306_data_write i2c s data =
        (i2c s.i2c_channel s.i2c_addr (SSD1306_DATA_CONTROL_BYTE :: data),
         [(s.i2c_channel, s.i2c_addr, SSD1306_DATA_CONTROL_BYTE :: data)]) ∧
      (SSD1306_DATA_CONTROL_BYTE :: data).length = data.length + 1) := by
  unfold ssd1306_data_write SSD1306_DATA_WRITE_BUFFER_SIZE
  rw [hinit]
  constructor
  · intro h
    rw [if_neg (by simp), if_pos (by omega)]
  · intro h
    rw [if_neg (by simp), if_neg (by omega)]
    exact ⟨rfl, rfl⟩

/-- Witness for `ssd1306_data_write_capacity` at a concrete session and
payload. -/
theorem ssd1306_data_write_capacity_witness :
    ssd1306_data_write ssd1306_i2c_ok ssd1306_test_session [1, 2, 3] =
      (ssd1306_i2c_ok 0 0x78 [0x40, 1, 2, 3], [(0, 0x78, [0x40, 1, 2, 3])]) :=
  ((ssd1306_data_write_capacity ssd1306_i2c_ok ssd1306_test_session [1, 2, 3]
    rfl).2 (by decide)).1

/-- **C7** — `ssd1306_draw_fill` memsets the whole framebuffer to a single
byte that is `0x00` or `0xFF`, and `fill BLACK; fill WHITE` produces the
bytewise complement of `fill WHITE; fill BLACK`, whatever the inversion
state of the session. -/
theorem ssd1306_draw_fill_complement (s : ssd1306_t) :
    (∀ c, ∃ b, (b = 0x00 ∨ b = 0xFF) ∧
      (ssd1306_draw_fill s c).2.buffer = List.replicate SSD1306_BUFFER_SIZE b) ∧
    (ssd1306_draw_fill (ssd1306_draw_fill s SSD1306_COLOR_BLACK).2
        SSD1306_COLOR_WHITE).2.buffer =
      ((ssd1306_draw_fill (ssd1306_draw_fill s SSD1306_COLOR_WHITE).2
        SSD1306_COLOR_BLACK).2.buffer).map (fun b => 0xFF - b) := by
  constructor
  · intro c
    cases c <;> cases h : s.inverted
    · exact ⟨0x00, Or.inl rfl, by simp [ssd1306_draw_fill, h]⟩
    · exact ⟨0xFF, Or.inr rfl, by simp [ssd1306_draw_fill, h]⟩
    · exact ⟨0xFF, Or.inr rfl, by simp [ssd1306_draw_fill, h]⟩
    · exact ⟨0x00, Or.inl rfl, by simp [ssd1306_draw_fill, h]⟩
  · cases h : s.inverted <;>
      simp [ssd1306_draw_fill, h, List.map_replicate]

set_option maxRecDepth 100000 in
/-- **C8** — the Bresenham line primitive includes both endpoints: on an
initialized, non-inverted session with a cleared buffer, the line from
`(0,0)` to `(0,0)` in white sets exactly the pixel `(0,0)`, and the line
from `(0,0)` to `(10,0)` sets exactly the eleven pixels `(0,0) … (10,0)`. -/
theorem ssd1306_draw_line_endpoints :
    ssd1306_set_pixels
        (ssd1306_draw_line ssd1306_test_session 0 0 0 0 SSD1306_COLOR_WHITE).2.buffer
      = [(0, 0)] ∧
    ssd1306_set_pixels
        (ssd1306_draw_line ssd1306_test_session 0 0 10 0 SSD1306_COLOR_WHITE).2.buffer
      = (List.range 11).map (fun x => (x, 0)) := by
  decide

/-- **C9** — `ssd1306_set_inversion` never modifies the framebuffer bytes,
and the `inverted` flag is updated only when the command transmission
succeeds; on any failure it keeps its pre-call value. -/
theorem ssd1306_set_inversion_frame (i2c : SSD1306_I2C) (s : ssd1306_t) (b : Bool) :
    (ssd1306_set_inversion i2c s b).2.1.buffer = s.buffer ∧
    ((ssd1306_set_inversion i2c s b).1 ≠ SSD1306_OK →
      (ssd1306_set_inversion i2c s b).2.1 = s) ∧
    ((ssd1306_set_inversion i2c s b).1 = SSD1306_OK →
      (ssd1306_set_inversion i2c s b).2.1 = { s with inverted := b }) := by
  simp only [ssd1306_set_inversion]
  by_cases h :
    (ssd1306_cmd_write_multi i2c s
      [SSD1306_CMD_CONTROL_BYTE, if b then 0xA7 else 0xA6]).1 = SSD1306_OK
  · simp [h]
  · simp [h]

/-- Witness for `ssd1306_set_inversion_frame` on a failing transport: the
session (in particular the `inverted` flag) is left unchanged. -/
theorem ssd1306_set_inversion_frame_witness :
    (ssd1306_set_inversion ssd1306_i2c_fail ssd1306_test_session true).2.1 =
      ssd1306_test_session :=
  (ssd1306_set_inversion_frame ssd1306_i2c_fail ssd1306_test_session
    true).2.1 (by decide)

/-- **C10** — `ssd1306_update` is read-only on the session: whatever the
transport outcome, every framebuffer byte, the cursor position and the
`inverted`, `scrolling` and `initialized` flags keep their pre-call values. -/
theorem ssd1306_update_preserves_session (i2c : SSD1306_I2C) (s : ssd1306_t) :
    (ssd1306_update i2c s).2.1.buffer = s.buffer ∧
    (ssd1306_update i2c s).2.1.x_pos = s.x_pos ∧
    (ssd1306_update i2c s).2.1.y_pos = s.y_pos ∧
    (ssd1306_update i2c s).2.1.inverted = s.inverted ∧
    (ssd1306_update i2c s).2.1.scrolling = s.scrolling ∧
    (ssd1306_update i2c s).2.1.initialized = s.initialized ∧
    (ssd1306_update i2c s).2.1 = s :=
  ⟨rfl, rfl, rfl, rfl, rfl, rfl, rfl⟩

/-- `ssd1306_draw_pixel` always reports success on the two-valued color
enumeration (out-of-range coordinates are silently ignored). -/
theorem ssd1306_draw_pixel_status (s : ssd1306_t) (x y : Nat)
    (c : ssd1306_color_t) : (ssd1306_draw_pixel s x y c).1 = SSD1306_OK := by
  unfold ssd1306_draw_pixel
  split
  · rfl
  · split <;> cases c <;> rfl

/-- The Bresenham loop always reports success: `ssd1306_draw_pixel` never
fails on the two-valued color enumeration. -/
theorem ssd1306_draw_line_loop_status (x1 y1 : Nat) (sx sy dx dy : Int)
    (color : ssd1306_color_t) :
    ∀ fuel x0 y0 err s,
      (ssd1306_draw_line_loop x1 y1 sx sy dx dy color fuel x0 y0 err s).1 =
        SSD1306_OK := by
  intro fuel
  induction fuel with
  | zero => intro x0 y0 err s; rfl
  | succ n ih =>
      intro x0 y0 err s
      simp only [ssd1306_draw_line_loop]
      simp [ssd1306_draw_pixel_status]
      split
      · rfl
      · apply ih

/-- `ssd1306_draw_line` always returns `SSD1306_OK`. -/
theorem ssd1306_draw_line_status (s : ssd1306_t) (x0 y0 x1 y1 : Nat)
    (c : ssd1306_color_t) :
    (ssd1306_draw_line s x0 y0 x1 y1 c).1 = SSD1306_OK := by
  unfold ssd1306_draw_line
  apply ssd1306_draw_line_loop_status

theorem ssd1306_draw_char_cols_status (char_line i : Nat)
    (color : ssd1306_color_t) :
    ∀ rem j s,
      (ssd1306_draw_char_cols char_line i color rem j s).1 = SSD1306_OK := by
  intro rem
  induction rem with
  | zero => intro j s; rfl
  | succ n ih =>
      intro j s
      simp only [ssd1306_draw_char_cols]
      simp [ssd1306_draw_pixel_status]
      apply ih

theorem ssd1306_draw_char_rows_status (ch : Char) (font : ssd1306_font_t)
    (color : ssd1306_color_t) :
    ∀ rem i s,
      (ssd1306_draw_char_rows ch font color rem i s).1 = SSD1306_OK := by
  intro rem
  induction rem with
  | zero => intro i s; rfl
  | succ n ih =>
      intro i s
      simp only [ssd1306_draw_char_rows]
      simp [ssd1306_draw_char_cols_status]
      apply ih

/-- `ssd1306_draw_char` always returns `SSD1306_OK`. -/
theorem ssd1306_draw_char_status (s : ssd1306_t) (ch : Char)
    (font : ssd1306_font_t) (c : ssd1306_color_t) :
    (ssd1306_draw_char s ch font c).1 = SSD1306_OK := by
  simp only [ssd1306_draw_char]
  simp [ssd1306_draw_char_rows_status]

/-- `ssd1306_draw_str` always returns `SSD1306_OK`. -/
theorem ssd1306_draw_str_status (str : List Char) (font : ssd1306_font_t)
    (c : ssd1306_color_t) :
    ∀ s, (ssd1306_draw_str s str font c).1 = SSD1306_OK := by
  induction str with
  | nil => intro s; rfl
  | cons ch rest ih =>
      intro s
      simp only [ssd1306_draw_str]
      simp [ssd1306_draw_char_status]
      apply ih

/-- `ssd1306_draw_rect` always returns `SSD1306_OK`. -/
theorem ssd1306_draw_rect_status (s : ssd1306_t) (x y w h : Nat)
    (c : ssd1306_color_t) : (ssd1306_draw_rect s x y w h c).1 = SSD1306_OK := by
  simp only [ssd1306_draw_rect]
  simp [ssd1306_draw_line_status]

theorem ssd1306_draw_filled_rect_loop_status (x y w : Nat)
    (color : ssd1306_color_t) :
    ∀ rem i s,
      (ssd1306_draw_filled_rect_loop x y w color rem i s).1 = SSD1306_OK := by
  intro rem
  induction rem with
  | zero => intro i s; rfl
  | succ n ih =>
      intro i s
      simp only [ssd1306_draw_filled_rect_loop]
      simp [ssd1306_draw_line_status]
      apply ih

/-- `ssd1306_draw_filled_rect` always returns `SSD1306_OK`. -/
theorem ssd1306_draw_filled_rect_status (s : ssd1306_t) (x y w h : Nat)
    (c : ssd1306_color_t) :
    (ssd1306_draw_filled_rect s x y w h c).1 = SSD1306_OK :=
  ssd1306_draw_filled_rect_loop_status x y w c (h + 1) 0 s

theorem ssd1306_draw_circle_loop_status (xc yc : Int)
    (color : ssd1306_color_t) :
    ∀ fuel x y err s,
      (ssd1306_draw_circle_loop xc yc color fuel x y err s).1 = SSD1306_OK := by
  intro fuel
  induction fuel with
  | zero => intro x y err s; rfl
  | succ n ih =>
      intro x y err s
      simp only [ssd1306_draw_circle_loop]
      simp [ssd1306_draw_pixel_status]
      (repeat' split) <;> first | rfl | apply ih

/-- `ssd1306_draw_circle` always returns `SSD1306_OK`. -/
theorem ssd1306_draw_circle_status (s : ssd1306_t) (x0 y0 r : Nat)
    (c : ssd1306_color_t) : (ssd1306_draw_circle s x0 y0 r c).1 = SSD1306_OK :=
  ssd1306_draw_circle_loop_status _ _ c _ _ _ _ s

theorem ssd1306_draw_filled_circle_loop_status (xc yc : Int)
    (color : ssd1306_color_t) :
    ∀ fuel x y err s,
      (ssd1306_draw_filled_circle_loop xc yc color fuel x y err s).1 =
        SSD1306_OK := by
  intro fuel
  induction fuel with
  | zero => intro x y err s; rfl
  | succ n ih =>
      intro x y err s
      simp only [ssd1306_draw_filled_circle_loop]
      simp [ssd1306_draw_line_status]
      (repeat' split) <;> first | rfl | apply ih

/-- `ssd1306_draw_filled_circle` always returns `SSD1306_OK`. -/
theorem ssd1306_draw_filled_circle_status (s : ssd1306_t) (x0 y0 r : Nat)
    (c : ssd1306_color_t) :
    (ssd1306_draw_filled_circle s x0 y0 r c).1 = SSD1306_OK :=
  ssd1306_draw_filled_circle_loop_status _ _ c _ _ _ _ s

/-- `ssd1306_draw_triangle` always returns `SSD1306_OK`. -/
theorem ssd1306_draw_triangle_status (s : ssd1306_t) (x1 y1 x2 y2 x3 y3 : Nat)
    (c : ssd1306_color_t) :
    (ssd1306_draw_triangle s x1 y1 x2 y2 x3 y3 c).1 = SSD1306_OK := by
  simp only [ssd1306_draw_triangle]
  simp [ssd1306_draw_line_status]

theorem ssd1306_draw_filled_triangle_loop_status (x3 y3 : Nat)
    (color : ssd1306_color_t) (xinc1 xinc2 yinc1 yinc2 den numadd : Int) :
    ∀ rem x y num s,
      (ssd1306_draw_filled_triangle_loop x3 y3 color xinc1 xinc2 yinc1 yinc2
        den numadd rem x y num s).1 = SSD1306_OK := by
  intro rem
  induction rem with
  | zero => intro x y num s; rfl
  | succ n ih =>
      intro x y num s
      simp only [ssd1306_draw_filled_triangle_loop]
      simp [ssd1306_draw_line_status]
      apply ih

/-- `ssd1306_draw_filled_triangle` always returns `SSD1306_OK`. -/
theorem ssd1306_draw_filled_triangle_status (s : ssd1306_t)
    (x1 y1 x2 y2 x3 y3 : Nat) (c : ssd1306_color_t) :
    (ssd1306_draw_filled_triangle s x1 y1 x2 y2 x3 y3 c).1 = SSD1306_OK := by
  simp only [ssd1306_draw_filled_triangle]
  split <;> apply ssd1306_draw_filled_triangle_loop_status

theorem ssd1306_draw_bitmap_cols_status (bitmap : Nat → Nat)
    (byte_width x yrow j : Nat) (color : ssd1306_color_t) :
    ∀ rem i byte s,
      (ssd1306_draw_bitmap_cols bitmap byte_width x yrow j color rem i byte
        s).1 = SSD1306_OK := by
  intro rem
  induction rem with
  | zero => intro i byte s; rfl
  | succ n ih =>
      intro i byte s
      simp only [ssd1306_draw_bitmap_cols]
      simp [ssd1306_draw_pixel_status]
      (repeat' split) <;> apply ih

theorem ssd1306_draw_bitmap_rows_status (bitmap : Nat → Nat)
    (byte_width x w : Nat) (color : ssd1306_color_t) :
    ∀ rem j y s,
      (ssd1306_draw_bitmap_rows bitmap byte_width x w color rem j y s).1 =
        SSD1306_OK := by
  intro rem
  induction rem with
  | zero => intro j y s; rfl
  | succ n ih =>
      intro j y s
      simp only [ssd1306_draw_bitmap_rows]
      simp [ssd1306_draw_bitmap_cols_status]
      apply ih

/-- `ssd1306_draw_bitmap` always returns `SSD1306_OK`. -/
theorem ssd1306_draw_bitmap_status (s : ssd1306_t) (x y : Nat)
    (bitmap : Nat → Nat) (w h : Nat) (c : ssd1306_color_t) :
    (ssd1306_draw_bitmap s x y bitmap w h c).1 = SSD1306_OK :=
  ssd1306_draw_bitmap_rows_status bitmap _ x w c h 0 y s

/-- `ssd1306_draw_int` never returns `SSD1306_NOINIT`: it yields
`SSD1306_WRONG_PARAMS` on a bad base and `SSD1306_OK` otherwise. -/
theorem ssd1306_draw_int_status (s : ssd1306_t) (num : Int) (base : Nat)
    (font : ssd1306_font_t) (c : ssd1306_color_t) :
    (ssd1306_draw_int s num base font c).1 ≠ SSD1306_NOINIT := by
  unfold ssd1306_draw_int
  split
  · simp
  · rw [ssd1306_draw_str_status]
    simp

/-- The page loop of `ssd1306_update` aborts on its very first
`ssd1306_data_write` when the session is uninitialized. -/
theorem ssd1306_update_loop_noinit (i2c : SSD1306_I2C) (s : ssd1306_t)
    (h : s.initialized = false) (p rem : Nat) (hrem : rem ≠ 0) :
    ssd1306_update_loop i2c s p rem = (SSD1306_NOINIT, []) := by
  cases rem with
  | zero => exact absurd rfl hrem
  | succ n => simp [ssd1306_update_loop, ssd1306_data_write, h]

/-- **C1 (counterexample)** — on an uninitialized session,
`ssd1306_draw_pixel` does *not* return `SSD1306_NOINIT`: it returns
`SSD1306_OK` and modifies the framebuffer. -/
theorem ssd1306_uninit_draw_pixel_writes_buffer :
    (ssd1306_draw_pixel ssd1306_uninit_session 0 0 SSD1306_COLOR_WHITE).1 =
      SSD1306_OK ∧
    (ssd1306_draw_pixel ssd1306_uninit_session 0 0 SSD1306_COLOR_WHITE).2.buffer ≠
      ssd1306_uninit_session.buffer := by
  decide

/-- **C1 (amended)** — when `initialized` is false, every operation that
communicates with the device (the command/data writes, display on/off,
contrast, inversion, scroll control, flush, clear-display) returns
`SSD1306_NOINIT`, leaves the session — in particular every framebuffer
byte — unchanged and performs no transport call; the purely in-memory
operations do not check the flag and never return `SSD1306_NOINIT`:
`draw_pixel`, `draw_fill`, `clear_buffer` and every shape/text primitive
built on them (line, char, string, rect, filled rect, circle, filled
circle, triangle, filled triangle, bitmap) return `SSD1306_OK`, and
`goto_xy` and `draw_int` return `SSD1306_OK` or `SSD1306_WRONG_PARAMS`. -/
theorem ssd1306_uninit_bus_ops_noinit (i2c : SSD1306_I2C) (s : ssd1306_t)
    (h : s.initialized = false) :
    (∀ cmd, ssd1306_cmd_write i2c s cmd = (SSD1306_NOINIT, [])) ∧
    (∀ l, ssd1306_cmd_write_multi i2c s l = (SSD1306_NOINIT, [])) ∧
    (∀ d, ssd1306_data_write i2c s d = (SSD1306_NOINIT, [])) ∧
    ssd1306_display_on i2c s = (SSD1306_NOINIT, []) ∧
    ssd1306_display_off i2c s = (SSD1306_NOINIT, []) ∧
    (∀ cv, ssd1306_set_contrast i2c s cv = (SSD1306_NOINIT, [])) ∧
    (∀ b, ssd1306_set_inversion i2c s b = (SSD1306_NOINIT, s, [])) ∧
    (∀ b, ssd1306_set_scroll_status i2c s b = (SSD1306_NOINIT, s, [])) ∧
    (∀ t sp ep iv, ssd1306_scroll i2c s t sp ep iv = (SSD1306_NOINIT, s, [])) ∧
    ssd1306_update i2c s = (SSD1306_NOINIT, s, []) ∧
    ssd1306_clear_display i2c s = (SSD1306_NOINIT, s, []) ∧
    (∀ x y c, (ssd1306_draw_pixel s x y c).1 = SSD1306_OK) ∧
    (∀ c, (ssd1306_draw_fill s c).1 = SSD1306_OK) ∧
    (ssd1306_clear_buffer s).1 = SSD1306_OK ∧
    (∀ x y, (ssd1306_goto_xy s x y).1 ≠ SSD1306_NOINIT) ∧
    (∀ x0 y0 x1 y1 c, (ssd1306_draw_line s x0 y0 x1 y1 c).1 = SSD1306_OK) ∧
    (∀ ch font c, (ssd1306_draw_char s ch font c).1 = SSD1306_OK) ∧
    (∀ str font c, (ssd1306_draw_str s str font c).1 = SSD1306_OK) ∧
    (∀ num base font c, (ssd1306_draw_int s num base font c).1 ≠ SSD1306_NOINIT) ∧
    (∀ x y w h c, (ssd1306_draw_rect s x y w h c).1 = SSD1306_OK) ∧
    (∀ x y w h c, (ssd1306_draw_filled_rect s x y w h c).1 = SSD1306_OK) ∧
    (∀ x0 y0 r c, (ssd1306_draw_circle s x0 y0 r c).1 = SSD1306_OK) ∧
    (∀ x0 y0 r c, (ssd1306_draw_filled_circle s x0 y0 r c).1 = SSD1306_OK) ∧
    (∀ x1 y1 x2 y2 x3 y3 c,
      (ssd1306_draw_triangle s x1 y1 x2 y2 x3 y3 c).1 = SSD1306_OK) ∧
    (∀ x1 y1 x2 y2 x3 y3 c,
      (ssd1306_draw_filled_triangle s x1 y1 x2 y2 x3 y3 c).1 = SSD1306_OK) ∧
    (∀ x y bm w h c, (ssd1306_draw_bitmap s x y bm w h c).1 = SSD1306_OK) := by
  have hcwm : ∀ l, ssd1306_cmd_write_multi i2c s l = (SSD1306_NOINIT, []) :=
    fun _ => by simp [ssd1306_cmd_write_multi, h]
  have hinv : ∀ b, ssd1306_set_inversion i2c s b = (SSD1306_NOINIT, s, []) :=
    fun b => by simp [ssd1306_set_inversion, hcwm]
  have hupd : ssd1306_update i2c s = (SSD1306_NOINIT, s, []) := by
    unfold ssd1306_update
    rw [ssd1306_update_loop_noinit i2c s h 0 SSD1306_NUM_PAGES (by norm_num [SSD1306_NUM_PAGES])]
  refine ⟨fun _ => by simp [ssd1306_cmd_write, h],
          hcwm,
          fun _ => by simp [ssd1306_data_write, h],
          by simp [ssd1306_display_on, hcwm],
          by simp [ssd1306_display_off, hcwm],
          fun _ => by simp [ssd1306_set_contrast, hcwm],
          hinv,
          fun b => by simp [ssd1306_set_scroll_status, hcwm],
          fun t sp ep iv => by cases t <;> simp [ssd1306_scroll, hcwm],
          hupd,
          by simp [ssd1306_clear_display, hinv],
          fun x y c => ssd1306_draw_pixel_status s x y c,
          fun c => rfl,
          rfl,
          fun x y => by unfold ssd1306_goto_xy; split <;> simp,
          fun x0 y0 x1 y1 c => ssd1306_draw_line_status s x0 y0 x1 y1 c,
          fun ch font c => ssd1306_draw_char_status s ch font c,
          fun str font c => ssd1306_draw_str_status str font c s,
          fun num base font c => ssd1306_draw_int_status s num base font c,
          fun x y w hh c => ssd1306_draw_rect_status s x y w hh c,
          fun x y w hh c => ssd1306_draw_filled_rect_status s x y w hh c,
          fun x0 y0 r c => ssd1306_draw_circle_status s x0 y0 r c,
          fun x0 y0 r c => ssd1306_draw_filled_circle_status s x0 y0 r c,
          fun x1 y1 x2 y2 x3 y3 c =>
            ssd1306_draw_triangle_status s x1 y1 x2 y2 x3 y3 c,
          fun x1 y1 x2 y2 x3 y3 c =>
            ssd1306_draw_filled_triangle_status s x1 y1 x2 y2 x3 y3 c,
          fun x y bm w hh c => ssd1306_draw_bitmap_status s x y bm w hh c⟩

/-- Witness for `ssd1306_uninit_bus_ops_noinit` at a concrete uninitialized
session. -/
theorem ssd1306_uninit_bus_ops_noinit_witness :
    ssd1306_update ssd1306_i2c_ok ssd1306_uninit_session =
      (SSD1306_NOINIT, ssd1306_uninit_session, []) ∧
    ssd1306_set_inversion ssd1306_i2c_ok ssd1306_uninit_session true =
      (SSD1306_NOINIT, ssd1306_uninit_session, []) := by
  obtain ⟨_, _, _, _, _, _, hinv, _, _, hupd, _⟩ :=
    ssd1306_uninit_bus_ops_noinit ssd1306_i2c_ok ssd1306_uninit_session rfl
  exact ⟨hupd, hinv true⟩

set_option maxRecDepth 100000 in
/-- **C4 (counterexample)** — `ssd1306_draw_int` prepends the minus sign
only in base 10: `drawInt(-255, 16, …)` renders the string `"FF"`, not
`"-FF"` (shown here on a concrete session and font: the rendered result
differs from rendering `"-FF"`). -/
theorem ssd1306_draw_int_hex_negative_unsigned :
    ssd1306_int_to_str (-255) 16 = ['F', 'F'] ∧
    ssd1306_draw_int ssd1306_test_session (-255) 16 ssd1306_test_font
        SSD1306_COLOR_WHITE =
      ssd1306_draw_str ssd1306_test_session ['F', 'F'] ssd1306_test_font
        SSD1306_COLOR_WHITE ∧
    ssd1306_draw_int ssd1306_test_session (-255) 16 ssd1306_test_font
        SSD1306_COLOR_WHITE ≠
      ssd1306_draw_str ssd1306_test_session ['-', 'F', 'F'] ssd1306_test_font
        SSD1306_COLOR_WHITE := by
  decide

/-- **C4 (amended)** — `ssd1306_draw_int` converts its argument to a string
in the caller-specified base by repeated division and reversal and renders
that string, prepending the sign only in base 10: `drawInt(-255, 16, …)`
renders `"FF"`, `drawInt(0, 10, …)` renders `"0"`, `drawInt(-255, 10, …)`
renders `"-255"`, and a base outside `[2, 32]` yields
`SSD1306_WRONG_PARAMS` with the session untouched. -/
theorem ssd1306_draw_int_spec (s : ssd1306_t) (font : ssd1306_font_t)
    (color : ssd1306_color_t) :
    ssd1306_draw_int s (-255) 16 font color =
      ssd1306_draw_str s ['F', 'F'] font color ∧
    ssd1306_draw_int s 0 10 font color =
      ssd1306_draw_str s ['0'] font color ∧
    ssd1306_draw_int s (-255) 10 font color =
      ssd1306_draw_str s ['-', '2', '5', '5'] font color ∧
    (∀ num base, base < 2 ∨ base > 32 →
      ssd1306_draw_int s num base font color = (SSD1306_WRONG_PARAMS, s)) := by
  have h1 : ssd1306_int_to_str (-255) 16 = ['F', 'F'] := by decide
  have h2 : ssd1306_int_to_str 0 10 = ['0'] := by decide
  have h3 : ssd1306_int_to_str (-255) 10 = ['-', '2', '5', '5'] := by decide
  refine ⟨by simp [ssd1306_draw_int, h1],
          by simp [ssd1306_draw_int, h2],
          by simp [ssd1306_draw_int, h3],
          fun num base hb => by unfold ssd1306_draw_int; rw [if_pos hb]⟩

/-- Witness for `ssd1306_draw_int_spec`: base 1 is rejected. -/
theorem ssd1306_draw_int_spec_witness :
    ssd1306_draw_int ssd1306_test_session 7 1 ssd1306_test_font
      SSD1306_COLOR_WHITE = (SSD1306_WRONG_PARAMS, ssd1306_test_session) :=
  (ssd1306_draw_int_spec ssd1306_test_session ssd1306_test_font
    SSD1306_COLOR_WHITE).2.2.2 7 1 (Or.inl (by norm_num))

/-! ## Bit-level helpers for the pixel theorem -/

theorem testBit_lor_pow_self (b k : Nat) : (b ||| 2 ^ k).testBit k = true := by
  simp [Nat.testBit_or, Nat.testBit_two_pow_self]

theorem testBit_lor_pow_other (b k j : Nat) (h : j ≠ k) :
    (b ||| 2 ^ k).testBit j = b.testBit j := by
  simp [Nat.testBit_or, Nat.testBit_two_pow_of_ne (Ne.symm h)]

theorem testBit_255_lt (k : Nat) (hk : k < 8) : Nat.testBit 255 k = true := by
  interval_cases k <;> decide

theorem testBit_land_mask_self (b k : Nat) (hk : k < 8) :
    (b &&& (255 ^^^ 2 ^ k)).testBit k = false := by
  simp [Nat.testBit_and, Nat.testBit_xor, testBit_255_lt k hk,
    Nat.testBit_two_pow_self]

theorem testBit_land_mask_other (b k j : Nat) (hb : b < 256) (h : j ≠ k) :
    (b &&& (255 ^^^ 2 ^ k)).testBit j = b.testBit j := by
  rcases lt_or_ge j 8 with hj | hj
  · simp [Nat.testBit_and, Nat.testBit_xor, testBit_255_lt j hj,
      Nat.testBit_two_pow_of_ne (Ne.symm h)]
  · have hbj : b.testBit j = false := by
      refine Nat.testBit_lt_two_pow (lt_of_lt_of_le hb ?_)
      calc (256 : Nat) = 2 ^ 8 := by norm_num
        _ ≤ 2 ^ j := Nat.pow_le_pow_right (by norm_num) hj
    simp [Nat.testBit_and, hbj]

theorem getD_set_self_nat (l : List Nat) (i v : Nat) (h : i < l.length) :
    (l.set i v).getD i 0 = v := by
  rw [List.getD_eq_getElem?_getD, List.getElem?_set_self h]
  rfl

theorem getD_set_other_nat (l : List Nat) (i j v : Nat) (h : j ≠ i) :
    (l.set i v).getD j 0 = l.getD j 0 := by
  rw [List.getD_eq_getElem?_getD, List.getElem?_set_ne (Ne.symm h),
    ← List.getD_eq_getElem?_getD]

/-- In-range `ssd1306_draw_pixel` with physical color white: the target bit
is or-ed into the addressed byte. -/
theorem ssd1306_draw_pixel_white (s : ssd1306_t) (x y : Nat)
    (c : ssd1306_color_t) (hx : x < 128) (hy : y < 64)
    (hphys : (if s.inverted then ssd1306_color_not c else c) = SSD1306_COLOR_WHITE) :
    ssd1306_draw_pixel s x y c =
      (SSD1306_OK, { s with
        buffer := s.buffer.set (x + y / 8 * 128)
                    (s.buffer.getD (x + y / 8 * 128) 0 ||| 2 ^ (y % 8)) }) := by
  have h1 : y >>> 3 = y / 8 := by rw [Nat.shiftRight_eq_div_pow]
  have h2 : y &&& 7 = y % 8 := by
    have := Nat.and_pow_two_sub_one_eq_mod y 3
    norm_num at this
    omega
  have h3 : (1 : Nat) <<< (y % 8) = 2 ^ (y % 8) := by rw [Nat.shiftLeft_eq, one_mul]
  simp only [ssd1306_draw_pixel, SSD1306_PXL_WIDTH, SSD1306_PXL_HEIGHT]
  rw [if_neg (by omega), hphys]
  simp [h1, h2, h3]

/-- In-range `ssd1306_draw_pixel` with physical color black: the target bit
is masked out of the addressed byte. -/
theorem ssd1306_draw_pixel_black (s : ssd1306_t) (x y : Nat)
    (c : ssd1306_color_t) (hx : x < 128) (hy : y < 64)
    (hphys : (if s.inverted then ssd1306_color_not c else c) = SSD1306_COLOR_BLACK) :
    ssd1306_draw_pixel s x y c =
      (SSD1306_OK, { s with
        buffer := s.buffer.set (x + y / 8 * 128)
                    (s.buffer.getD (x + y / 8 * 128) 0 &&& (255 ^^^ 2 ^ (y % 8))) }) := by
  have h1 : y >>> 3 = y / 8 := by rw [Nat.shiftRight_eq_div_pow]
  have h2 : y &&& 7 = y % 8 := by
    have := Nat.and_pow_two_sub_one_eq_mod y 3
    norm_num at this
    omega
  have h3 : (1 : Nat) <<< (y % 8) = 2 ^ (y % 8) := by rw [Nat.shiftLeft_eq, one_mul]
  simp only [ssd1306_draw_pixel, SSD1306_PXL_WIDTH, SSD1306_PXL_HEIGHT]
  rw [if_neg (by omega), hphys]
  simp [h1, h2, h3]

/-- **C2** — `ssd1306_draw_pixel`: out-of-range coordinates leave the
session byte-for-byte unchanged and return success; in range, bit `y % 8`
of buffer byte `x + (y / 8) * 128` is set to the physical value
`inverted ? !c : c`, and every other bit of the framebuffer is unchanged. -/
theorem ssd1306_draw_pixel_spec (s : ssd1306_t) (x y : Nat)
    (c : ssd1306_color_t) (hlen : s.buffer.length = 1024)
    (hbytes : ∀ b ∈ s.buffer, b < 256) :
    (x ≥ 128 ∨ y ≥ 64 → ssd1306_draw_pixel s x y c = (SSD1306_OK, s)) ∧
    (x < 128 → y < 64 →
      (ssd1306_draw_pixel s x y c).1 = SSD1306_OK ∧
      ((ssd1306_draw_pixel s x y c).2.buffer.getD (x + y / 8 * 128) 0).testBit (y % 8)
        = ssd1306_color_bit (if s.inverted then ssd1306_color_not c else c) ∧
      (∀ j, j ≠ x + y / 8 * 128 →
        (ssd1306_draw_pixel s x y c).2.buffer.getD j 0 = s.buffer.getD j 0) ∧
      (∀ k, k ≠ y % 8 →
        ((ssd1306_draw_pixel s x y c).2.buffer.getD (x + y / 8 * 128) 0).testBit k
          = (s.buffer.getD (x + y / 8 * 128) 0).testBit k)) := by
  constructor
  · intro h
    unfold ssd1306_draw_pixel
    rw [if_pos (by simpa [SSD1306_PXL_WIDTH, SSD1306_PXL_HEIGHT] using h)]
  · intro hx hy
    have hlt : x + y / 8 * 128 < s.buffer.length := by
      rw [hlen]; omega
    have hb : s.buffer.getD (x + y / 8 * 128) 0 < 256 := by
      rw [List.getD_eq_getElem?_getD, List.getElem?_eq_getElem hlt]
      exact hbytes _ (List.getElem_mem hlt)
    have hk8 : y % 8 < 8 := Nat.mod_lt _ (by norm_num)
    cases hphys : (if s.inverted then ssd1306_color_not c else c)
    · rw [ssd1306_draw_pixel_black s x y c hx hy hphys]
      dsimp only
      refine ⟨rfl, ?_, fun j hj => ?_, fun k hk => ?_⟩
      · rw [getD_set_self_nat _ _ _ hlt]
        simp [ssd1306_color_bit, testBit_land_mask_self _ _ hk8]
      · exact getD_set_other_nat _ _ _ _ hj
      · rw [getD_set_self_nat _ _ _ hlt]
        exact testBit_land_mask_other _ _ _ hb hk
    · rw [ssd1306_draw_pixel_white s x y c hx hy hphys]
      dsimp only
      refine ⟨rfl, ?_, fun j hj => ?_, fun k hk => ?_⟩
      · rw [getD_set_self_nat _ _ _ hlt]
        simp [ssd1306_color_bit, testBit_lor_pow_self]
      · exact getD_set_other_nat _ _ _ _ hj
      · rw [getD_set_self_nat _ _ _ hlt]
        exact testBit_lor_pow_other _ _ _ hk

set_option maxRecDepth 100000 in
/-- Witness for `ssd1306_draw_pixel_spec`: drawing white at `(3, 13)` on the
cleared test session sets the addressed bit. -/
theorem ssd1306_draw_pixel_spec_witness :
    ((ssd1306_draw_pixel ssd1306_test_session 3 13 SSD1306_COLOR_WHITE).2.buffer.getD
        (3 + 13 / 8 * 128) 0).testBit (13 % 8)
      = ssd1306_color_bit (if ssd1306_test_session.inverted then
          ssd1306_color_not SSD1306_COLOR_WHITE else SSD1306_COLOR_WHITE) :=
  ((ssd1306_draw_pixel_spec ssd1306_test_session 3 13 SSD1306_COLOR_WHITE
      (by simp [ssd1306_test_session, SSD1306_BUFFER_SIZE, SSD1306_PXL_WIDTH,
        SSD1306_PXL_HEIGHT])
      (fun b hb => by
        simp [ssd1306_test_session, List.eq_of_mem_replicate hb])).2
    (by norm_num) (by norm_num)).2.1

/-! ## Flush frames -/

/-- On an initialized session, `ssd1306_data_write` of one page payload
performs exactly one successful transport call when the transport accepts
everything. -/
theorem ssd1306_data_write_page_ok (i2c : SSD1306_I2C) (s : ssd1306_t)
    (hinit : s.initialized = true)
    (hok : ∀ ch a d, i2c ch a d = SSD1306_OK) (p : Nat) :
    ssd1306_data_write i2c s ((s.buffer.drop (128 * p)).take 128) =
      (SSD1306_OK, [(s.i2c_channel, s.i2c_addr,
        SSD1306_DATA_CONTROL_BYTE :: ((s.buffer.drop (128 * p)).take 128))]) := by
  unfold ssd1306_data_write
  rw [if_neg (by simp [hinit]),
    if_neg (by simp [List.length_take, SSD1306_DATA_WRITE_BUFFER_SIZE])]
  simp [hok]

/-- The page loop of `ssd1306_update` under an accepting transport:
the trace lists the pages `p, p+1, …, p+rem−1` in order. -/
theorem ssd1306_update_loop_ok (i2c : SSD1306_I2C) (s : ssd1306_t)
    (hinit : s.initialized = true)
    (hok : ∀ ch a d, i2c ch a d = SSD1306_OK) :
    ∀ rem p, ssd1306_update_loop i2c s p rem =
      (SSD1306_OK, (List.range rem).map fun q =>
        (s.i2c_channel, s.i2c_addr,
         SSD1306_DATA_CONTROL_BYTE :: ((s.buffer.drop (128 * (p + q))).take 128))) := by
  intro rem
  induction rem with
  | zero => intro p; simp [ssd1306_update_loop]
  | succ n ih =>
      intro p
      have harith : ∀ q : Nat, p + 1 + q = p + (q + 1) := fun q => by omega
      simp only [ssd1306_update_loop, SSD1306_PXL_WIDTH,
        ssd1306_data_write_page_ok i2c s hinit hok p, ih (p + 1)]
      simp [List.range_succ_eq_map, List.map_map, Function.comp_def, harith]

set_option maxRecDepth 100000 in
/-- **C3** — on an initialized session with an accepting transport,
`ssd1306_update` transmits exactly 8 data frames in ascending page order;
frame `p` carries, after the data control byte, exactly the 128 buffer
bytes of page `p` (`buffer[128p … 128p+127]`); on a freshly cleared buffer
every payload byte is zero. -/
theorem ssd1306_update_frames (i2c : SSD1306_I2C) (s : ssd1306_t)
    (hinit : s.initialized = true) (hlen : s.buffer.length = 1024)
    (hok : ∀ ch a d, i2c ch a d = SSD1306_OK) :
    ssd1306_update i2c s =
      (SSD1306_OK, s, (List.range 8).map fun p =>
        (s.i2c_channel, s.i2c_addr,
         SSD1306_DATA_CONTROL_BYTE :: ((s.buffer.drop (128 * p)).take 128))) ∧
    (∀ p, p < 8 → ((s.buffer.drop (128 * p)).take 128).length = 128) ∧
    (s.buffer = List.replicate 1024 0 →
      (ssd1306_update i2c s).2.2 =
        List.replicate 8 (s.i2c_channel, s.i2c_addr,
          SSD1306_DATA_CONTROL_BYTE :: List.replicate 128 0)) := by
  have h1 : ssd1306_update i2c s =
      (SSD1306_OK, s, (List.range 8).map fun p =>
        (s.i2c_channel, s.i2c_addr,
         SSD1306_DATA_CONTROL_BYTE :: ((s.buffer.drop (128 * p)).take 128))) := by
    unfold ssd1306_update SSD1306_NUM_PAGES
    rw [ssd1306_update_loop_ok i2c s hinit hok 8 0]
    simp
  refine ⟨h1, fun p hp => ?_, fun hbuf => ?_⟩
  · rw [List.length_take, List.length_drop, hlen]
    omega
  · rw [h1]
    dsimp only
    rw [hbuf, List.eq_replicate_iff]
    refine ⟨by simp, fun f hf => ?_⟩
    obtain ⟨p, hp, rfl⟩ := List.mem_map.mp hf
    have hp8 : p < 8 := List.mem_range.mp hp
    rw [List.drop_replicate, List.take_replicate]
    have : min 128 (1024 - 128 * p) = 128 := by omega
    rw [this]

set_option maxRecDepth 100000 in
/-- Witness for `ssd1306_update_frames` at the concrete cleared session. -/
theorem ssd1306_update_frames_witness :
    (ssd1306_update ssd1306_i2c_ok ssd1306_test_session).2.2 =
      List.replicate 8 (0, 0x78,
        SSD1306_DATA_CONTROL_BYTE :: List.replicate 128 0) :=
  (ssd1306_update_frames ssd1306_i2c_ok ssd1306_test_session rfl
      (by simp [ssd1306_test_session, SSD1306_BUFFER_SIZE, SSD1306_PXL_WIDTH,
        SSD1306_PXL_HEIGHT])
      (fun _ _ _ => rfl)).2.2 rfl

/-! ## Control-byte framing -/

theorem ssd1306_cmd_framed_nil : ssd1306_cmd_framed [] := by
  intro f hf
  cases hf

theorem ssd1306_data_framed_nil : ssd1306_data_framed [] := by
  intro f hf
  cases hf

theorem ssd1306_cmd_framed_append {a b : List SSD1306_Frame}
    (ha : ssd1306_cmd_framed a) (hb : ssd1306_cmd_framed b) :
    ssd1306_cmd_framed (a ++ b) := by
  intro f hf
  rcases List.mem_append.mp hf with h | h
  · exact ha f h
  · exact hb f h

theorem ssd1306_data_framed_append {a b : List SSD1306_Frame}
    (ha : ssd1306_data_framed a) (hb : ssd1306_data_framed b) :
    ssd1306_data_framed (a ++ b) := by
  intro f hf
  rcases List.mem_append.mp hf with h | h
  · exact ha f h
  · exact hb f h

theorem ssd1306_well_framed_append {a b : List SSD1306_Frame}
    (ha : ssd1306_well_framed a) (hb : ssd1306_well_framed b) :
    ssd1306_well_framed (a ++ b) := by
  intro f hf
  rcases List.mem_append.mp hf with h | h
  · exact ha f h
  · exact hb f h

theorem ssd1306_cmd_framed_well {a : List SSD1306_Frame}
    (ha : ssd1306_cmd_framed a) : ssd1306_well_framed a :=
  fun f hf => Or.inl (ha f hf)

theorem ssd1306_data_framed_well {a : List SSD1306_Frame}
    (ha : ssd1306_data_framed a) : ssd1306_well_framed a :=
  fun f hf => Or.inr (ha f hf)

/-- `ssd1306_cmd_write` only emits frames led by the command control byte. -/
theorem ssd1306_cmd_write_framed (i2c : SSD1306_I2C) (s : ssd1306_t) (cmd : Nat) :
    ssd1306_cmd_framed (ssd1306_cmd_write i2c s cmd).2 := by
  unfold ssd1306_cmd_write
  split
  · exact ssd1306_cmd_framed_nil
  · intro f hf
    rw [List.mem_singleton] at hf
    subst hf
    rfl

/-- `ssd1306_cmd_write_multi` only emits frames led by the command control
byte, provided the caller-built list starts with it — as every call site in
the driver does. -/
theorem ssd1306_cmd_write_multi_framed (i2c : SSD1306_I2C) (s : ssd1306_t)
    (l : List Nat) (hl : l.head? = some SSD1306_CMD_CONTROL_BYTE) :
    ssd1306_cmd_framed (ssd1306_cmd_write_multi i2c s l).2 := by
  unfold ssd1306_cmd_write_multi
  split
  · exact ssd1306_cmd_framed_nil
  · intro f hf
    rw [List.mem_singleton] at hf
    subst hf
    exact hl

/-- `ssd1306_data_write` only emits frames led by the data control byte. -/
theorem ssd1306_data_write_framed (i2c : SSD1306_I2C) (s : ssd1306_t)
    (d : List Nat) : ssd1306_data_framed (ssd1306_data_write i2c s d).2 := by
  unfold ssd1306_data_write
  split
  · exact ssd1306_data_framed_nil
  · split
    · exact ssd1306_data_framed_nil
    · intro f hf
      rw [List.mem_singleton] at hf
      subst hf
      rfl

theorem ssd1306_display_on_framed (i2c : SSD1306_I2C) (s : ssd1306_t) :
    ssd1306_cmd_framed (ssd1306_display_on i2c s).2 := by
  simp only [ssd1306_display_on]
  split <;> exact ssd1306_cmd_write_multi_framed i2c s _ (by rfl)

theorem ssd1306_display_off_framed (i2c : SSD1306_I2C) (s : ssd1306_t) :
    ssd1306_cmd_framed (ssd1306_display_off i2c s).2 := by
  simp only [ssd1306_display_off]
  split <;> exact ssd1306_cmd_write_multi_framed i2c s _ (by rfl)

theorem ssd1306_set_contrast_framed (i2c : SSD1306_I2C) (s : ssd1306_t)
    (cv : Nat) : ssd1306_cmd_framed (ssd1306_set_contrast i2c s cv).2 := by
  simp only [ssd1306_set_contrast]
  split <;> exact ssd1306_cmd_write_multi_framed i2c s _ (by rfl)

theorem ssd1306_set_inversion_framed (i2c : SSD1306_I2C) (s : ssd1306_t)
    (b : Bool) : ssd1306_cmd_framed (ssd1306_set_inversion i2c s b).2.2 := by
  simp only [ssd1306_set_inversion]
  (repeat' split) <;> exact ssd1306_cmd_write_multi_framed i2c s _ (by rfl)

theorem ssd1306_set_scroll_status_framed (i2c : SSD1306_I2C) (s : ssd1306_t)
    (b : Bool) :
    ssd1306_cmd_framed (ssd1306_set_scroll_status i2c s b).2.2 := by
  simp only [ssd1306_set_scroll_status]
  (repeat' split) <;> exact ssd1306_cmd_write_multi_framed i2c s _ (by rfl)

theorem ssd1306_scroll_framed (i2c : SSD1306_I2C) (s : ssd1306_t)
    (t : ssd1306_scroll_t) (sp ep iv : Nat) :
    ssd1306_cmd_framed (ssd1306_scroll i2c s t sp ep iv).2.2 := by
  cases t <;> simp only [ssd1306_scroll] <;> (repeat' split) <;>
    first
      | exact ssd1306_cmd_write_multi_framed i2c s _ (by rfl)
      | exact ssd1306_cmd_framed_append
          (ssd1306_cmd_write_multi_framed i2c s _ (by rfl))
          (ssd1306_cmd_write_framed i2c s _)
      | exact ssd1306_cmd_framed_append
          (ssd1306_cmd_framed_append
            (ssd1306_cmd_write_multi_framed i2c s _ (by rfl))
            (ssd1306_cmd_write_framed i2c s _))
          (ssd1306_cmd_write_framed i2c s _)
      | exact ssd1306_cmd_framed_append
          (ssd1306_cmd_framed_append
            (ssd1306_cmd_framed_append
              (ssd1306_cmd_write_multi_framed i2c s _ (by rfl))
              (ssd1306_cmd_write_framed i2c s _))
            (ssd1306_cmd_write_framed i2c s _))
          (ssd1306_set_scroll_status_framed i2c s _)
      | exact ssd1306_cmd_framed_append
          (ssd1306_cmd_framed_append
            (ssd1306_cmd_write_multi_framed i2c s _ (by rfl))
            (ssd1306_cmd_write_framed i2c s _))
          (ssd1306_set_scroll_status_framed i2c s _)

theorem ssd1306_update_loop_framed (i2c : SSD1306_I2C) (s : ssd1306_t) :
    ∀ rem p, ssd1306_data_framed (ssd1306_update_loop i2c s p rem).2 := by
  intro rem
  induction rem with
  | zero => intro p; exact ssd1306_data_framed_nil
  | succ n ih =>
      intro p
      simp only [ssd1306_update_loop]
      split
      · exact ssd1306_data_write_framed i2c s _
      · exact ssd1306_data_framed_append (ssd1306_data_write_framed i2c s _)
          (ih (p + 1))

theorem ssd1306_update_framed (i2c : SSD1306_I2C) (s : ssd1306_t) :
    ssd1306_data_framed (ssd1306_update i2c s).2.2 :=
  ssd1306_update_loop_framed i2c s SSD1306_NUM_PAGES 0

theorem ssd1306_clear_display_framed (i2c : SSD1306_I2C) (s : ssd1306_t) :
    ssd1306_well_framed (ssd1306_clear_display i2c s).2.2 := by
  simp only [ssd1306_clear_display]
  (repeat' split) <;>
    first
      | exact ssd1306_cmd_framed_well (ssd1306_set_inversion_framed i2c s false)
      | exact ssd1306_well_framed_append
          (ssd1306_cmd_framed_well (ssd1306_set_inversion_framed i2c s false))
          (ssd1306_data_framed_well (ssd1306_update_framed i2c _))

set_option maxHeartbeats 2000000 in
theorem ssd1306_init_framed (i2c : SSD1306_I2C) (ch a : Nat) :
    ssd1306_well_framed (ssd1306_init i2c ch a).2.2 := by
  simp only [ssd1306_init]
  (repeat' split) <;>
    (repeat' apply ssd1306_well_framed_append) <;>
    first
      | exact ssd1306_cmd_framed_well (ssd1306_display_off_framed i2c _)
      | exact ssd1306_cmd_framed_well (ssd1306_set_inversion_framed i2c _ false)
      | exact ssd1306_cmd_framed_well (ssd1306_set_contrast_framed i2c _ 255)
      | exact ssd1306_cmd_framed_well (ssd1306_set_scroll_status_framed i2c _ false)
      | exact ssd1306_cmd_framed_well
          (ssd1306_cmd_write_multi_framed i2c _ _ (by rfl))
      | exact ssd1306_cmd_framed_well (ssd1306_display_on_framed i2c _)
      | exact ssd1306_clear_display_framed i2c _

/-- **C5** — every byte sequence the driver hands to the bus transport is
correctly framed: every transmission produced by the command-issuing
operations (single commands, compound bursts, control/scroll operations and
the initialization sequence) has `0x00` as its first byte, and every
transmission conveying pixel data has `0x40` as its first byte. -/
theorem ssd1306_framing_invariant (i2c : SSD1306_I2C) (s : ssd1306_t) :
    (∀ cmd, ssd1306_cmd_framed (ssd1306_cmd_write i2c s cmd).2) ∧
    (∀ d, ssd1306_data_framed (ssd1306_data_write i2c s d).2) ∧
    ssd1306_cmd_framed (ssd1306_display_on i2c s).2 ∧
    ssd1306_cmd_framed (ssd1306_display_off i2c s).2 ∧
    (∀ cv, ssd1306_cmd_framed (ssd1306_set_contrast i2c s cv).2) ∧
    (∀ b, ssd1306_cmd_framed (ssd1306_set_inversion i2c s b).2.2) ∧
    (∀ b, ssd1306_cmd_framed (ssd1306_set_scroll_status i2c s b).2.2) ∧
    (∀ t sp ep iv, ssd1306_cmd_framed (ssd1306_scroll i2c s t sp ep iv).2.2) ∧
    ssd1306_data_framed (ssd1306_update i2c s).2.2 ∧
    ssd1306_well_framed (ssd1306_clear_display i2c s).2.2 ∧
    (∀ ch a, ssd1306_well_framed (ssd1306_init i2c ch a).2.2) :=
  ⟨fun cmd => ssd1306_cmd_write_framed i2c s cmd,
   fun d => ssd1306_data_write_framed i2c s d,
   ssd1306_display_on_framed i2c s,
   ssd1306_display_off_framed i2c s,
   fun cv => ssd1306_set_contrast_framed i2c s cv,
   fun b => ssd1306_set_inversion_framed i2c s b,
   fun b => ssd1306_set_scroll_status_framed i2c s b,
   fun t sp ep iv => ssd1306_scroll_framed i2c s t sp ep iv,
   ssd1306_update_framed i2c s,
   ssd1306_clear_display_framed i2c s,
   fun ch a => ssd1306_init_framed i2c ch a⟩

/-- Witness instantiating `ssd1306_framing_invariant` at a concrete session:
the display-on burst is command-framed and the flush trace is data-framed. -/
theorem ssd1306_framing_invariant_witness :
    ssd1306_cmd_framed (ssd1306_display_on ssd1306_i2c_ok ssd1306_test_session).2 ∧
    ssd1306_data_framed (ssd1306_update ssd1306_i2c_ok ssd1306_test_session).2.2 :=
  ⟨(ssd1306_framing_invariant ssd1306_i2c_ok ssd1306_test_session).2.2.1,
   (ssd1306_framing_invariant ssd1306_i2c_ok ssd1306_test_session).2.2.2.2.2.2.2.2.1⟩
